import Mathlib

/-!
Verification development for the s3server repository (`s3api` app).

The Lean definitions below are a shallow embedding of the code in
`src/s3api/auth.py` and `src/s3api/handlers.py`.  Python strings are Lean
`String`s, Python `None`-able values are `Option`s, and code that can raise
is modelled in `Except PyErr`.  External collaborators (the credential
store, the upload-session model, the rados byte store, hashlib/hmac) are
modelled as explicit parameters or oracle records: their *outcomes* are
inputs to the embedded functions, while all control flow, error
classification, and state transitions of the embedded source are translated
faithfully.  Line references are to the repository sources.
-/

/-- The distinct S3 error classes of `src/s3api/exceptions.py` that the
embedded code can raise or return (each Python class becomes one
constructor; messages carried by the exceptions are not semantically
relevant to the properties below and are dropped).
`completeMultipartAlreadyInProgress` and `noSuchUpload` are referenced by
`handlers.py` (their class bodies live outside `src/`). -/
inductive S3ErrorKind
  | internalError
  | invalidRequest
  | noSuchUpload
  | completeMultipartAlreadyInProgress
  | entityTooSmall
  | invalidPart
  | invalidAccessKeyId
  | authorizationHeaderMalformed
  | signatureDoesNotMatch
  deriving DecidableEq

/-- A Python exception as observable at the boundary of the embedded code:
either a structured `S3Error` subclass, or a raw builtin exception
(`ValueError`, `AttributeError`, `KeyError`, `TypeError`, `IndexError`). -/
inductive PyErr
  | s3 (k : S3ErrorKind)
  | valueError
  | attributeError
  | keyError
  | typeError
  | indexError
  deriving DecidableEq

/-! ### Python string primitives used by `auth.py` -/

/-- Python `str.lower()` restricted to ASCII (all strings the embedded code
lowercases — scheme keyword, header names, month names — are ASCII). -/
def pyLowerChar (c : Char) : Char :=
  if 'A' ≤ c && c ≤ 'Z' then Char.ofNat (c.toNat + 32) else c

/-- ASCII `str.lower()`. -/
def pyLower (s : String) : String :=
  String.mk (s.toList.map pyLowerChar)

/-- ASCII `str.upper()` (applied to the HTTP method). -/
def pyUpperChar (c : Char) : Char :=
  if 'a' ≤ c && c ≤ 'z' then Char.ofNat (c.toNat - 32) else c

/-- ASCII `str.upper()`. -/
def pyUpper (s : String) : String :=
  String.mk (s.toList.map pyUpperChar)

/-- Python whitespace characters (`str.split()` / `bytes.split()` default). -/
def isPyWs (c : Char) : Bool :=
  c = ' ' || c = '\t' || c = '\n' || c = '\x0d' || c = '\x0b' || c = '\x0c'

/-- Python `s.strip(c)` for a single strip character `c`. -/
def pyStripChar (c : Char) (s : String) : String :=
  String.mk (((s.toList.dropWhile (fun x => x = c)).reverse.dropWhile
    (fun x => x = c)).reverse)

/-- Helper for `pyWsSplit`. -/
def pyWsSplitAux : List Char → List Char → List String
  | [], acc => if acc.isEmpty then [] else [String.mk acc.reverse]
  | c :: cs, acc =>
    if isPyWs c then
      if acc.isEmpty then pyWsSplitAux cs []
      else String.mk acc.reverse :: pyWsSplitAux cs []
    else pyWsSplitAux cs (c :: acc)

/-- Python `s.split()` with no separator: split on whitespace runs, dropping
empty pieces. -/
def pyWsSplit (s : String) : List String :=
  pyWsSplitAux s.toList []

/-- Python `s.split(maxsplit=1)` with no separator (used on the raw
Authorization header at `auth.py:52`): at most two pieces, the remainder
keeps everything after the first whitespace run. -/
def pySplitWsOnce (s : String) : List String :=
  let l := s.toList.dropWhile isPyWs
  if l.isEmpty then []
  else
    let tok := l.takeWhile (fun c => !(isPyWs c))
    let rest := (l.dropWhile (fun c => !(isPyWs c))).dropWhile isPyWs
    if rest.isEmpty then [String.mk tok] else [String.mk tok, String.mk rest]

/-- Helper for `pySplitChar`. -/
def pySplitCharAux (sep : Char) : List Char → List Char → List String
  | [], acc => [String.mk acc.reverse]
  | c :: cs, acc =>
    if c = sep then String.mk acc.reverse :: pySplitCharAux sep cs []
    else pySplitCharAux sep cs (c :: acc)

/-- Python `s.split(sep)` for a one-character separator (the only form the
embedded code uses: `','`, `'/'`, `';'`).  `''.split(sep) = ['']`. -/
def pySplitChar (sep : Char) (s : String) : List String :=
  pySplitCharAux sep s.toList []

/-- Helper for `pySplitOnceChar`. -/
def pySplitOnceCharAux (sep : Char) : List Char → List Char → List String
  | [], acc => [String.mk acc.reverse]
  | c :: cs, acc =>
    if c = sep then [String.mk acc.reverse, String.mk cs]
    else pySplitOnceCharAux sep cs (c :: acc)

/-- Python `s.split(sep, maxsplit=1)` for a one-character separator. -/
def pySplitOnceChar (sep : Char) (s : String) : List String :=
  pySplitOnceCharAux sep s.toList []

/-- UTF-8 encoding of one character (the standard byte layout, written out
so it evaluates inside the kernel). -/
def utf8EncChar (c : Char) : List UInt8 :=
  let n := c.toNat
  if n < 128 then [UInt8.ofNat n]
  else if n < 2048 then
    [UInt8.ofNat (192 + n / 64), UInt8.ofNat (128 + n % 64)]
  else if n < 65536 then
    [UInt8.ofNat (224 + n / 4096), UInt8.ofNat (128 + (n / 64) % 64),
     UInt8.ofNat (128 + n % 64)]
  else
    [UInt8.ofNat (240 + n / 262144), UInt8.ofNat (128 + (n / 4096) % 64),
     UInt8.ofNat (128 + (n / 64) % 64), UInt8.ofNat (128 + n % 64)]

/-- UTF-8 bytes of a string (`str.encode('utf-8')`). -/
def strBytes (s : String) : List UInt8 :=
  s.toList.flatMap utf8EncChar

/-- Uppercase hex digit of a value below 16 (as `urllib.parse.quote` emits). -/
def hexUpChar (n : Nat) : Char :=
  if n < 10 then Char.ofNat (48 + n) else Char.ofNat (55 + n)

/-- Characters `urllib.parse.quote` never encodes (ASCII alphanumerics and
`_.-~`). -/
def pyAlwaysSafeChar (c : Char) : Bool :=
  c.isAlphanum || c = '_' || c = '.' || c = '-' || c = '~'

/-- Percent-encoding of one UTF-8 byte, with an extra `safe` set as in
`urllib.parse.quote`. -/
def pyQuoteByte (safe : List Char) (b : UInt8) : List Char :=
  let n := b.toNat
  let c := Char.ofNat n
  if n < 128 && (pyAlwaysSafeChar c || safe.contains c) then [c]
  else ['%', hexUpChar (n / 16), hexUpChar (n % 16)]

/-- Python `urllib.parse.quote(s, safe)`: percent-encode the UTF-8 bytes of `s`
except the always-safe characters and the ones in `safe`. -/
def pyQuote (safe : List Char) (s : String) : String :=
  String.mk (((strBytes s).map (pyQuoteByte safe)).flatten)

/-- Insertion step for sorting strings as Python `sorted` does (code-point
lexicographic order). -/
def insortStr (x : String) : List String → List String
  | [] => [x]
  | y :: ys => if y < x then y :: insortStr x ys else x :: y :: ys

/-- Python `sorted` on strings. -/
def pySorted (l : List String) : List String :=
  l.foldr insortStr []

/-- Helper for `dedupKeys`. -/
def dedupKeysAux : List String → List String → List String
  | [], _ => []
  | x :: xs, seen =>
    if seen.contains x then dedupKeysAux xs seen
    else x :: dedupKeysAux xs (x :: seen)

/-- The keys of a Django `QueryDict` in first-occurrence order (each key
once). -/
def dedupKeys (l : List String) : List String :=
  dedupKeysAux l []

/-- Digits-only numeral value, `none` if empty or a non-digit occurs. -/
def pyDigitsVal : List Char → Option Nat
  | [] => none
  | l =>
    l.foldl (fun acc c =>
      match acc with
      | none => none
      | some n => if c.isDigit then some (n * 10 + (c.toNat - 48)) else none)
      (some 0)

/-- Python `int(str)` on a string: optional surrounding whitespace, optional
sign, decimal digits; `none` models the `ValueError` on anything else. -/
def pyStrToInt? (s : String) : Option Int :=
  let l := ((s.toList.dropWhile isPyWs).reverse.dropWhile isPyWs).reverse
  match l with
  | '-' :: ds => (pyDigitsVal ds).map (fun n => -(n : Int))
  | '+' :: ds => (pyDigitsVal ds).map (fun n => (n : Int))
  | ds => (pyDigitsVal ds).map (fun n => (n : Int))

/-- Python `int(x)` where `x` came from `query_params.get(...)` and may be
`None` (`auth.py:89`): `int(None)` raises `TypeError`. -/
def pyIntOfOption : Option String → Except PyErr Int
  | none => Except.error PyErr.typeError
  | some s =>
    match pyStrToInt? s with
    | none => Except.error PyErr.valueError
    | some n => Except.ok n

/-! ### Timestamp parsing (`datetime.strptime` at the library boundary)

`strptime` is a Python-library primitive; it is modelled structurally for
the two fixed formats used by `auth.py` (`GMT_FORMAT` and
`SIGV4_TIMESTAMP`), in their canonical fixed-width form. -/

/-- A parsed wall-clock timestamp (year, month, day, hour, minute, second). -/
structure DateTime6 where
  y : Nat
  mo : Nat
  d : Nat
  h : Nat
  mi : Nat
  s : Nat
  deriving DecidableEq

/-- Two-digit numeral. -/
def digits2 (a b : Char) : Option Nat :=
  if a.isDigit && b.isDigit then some ((a.toNat - 48) * 10 + (b.toNat - 48))
  else none

/-- Four-digit numeral. -/
def digits4 (a b c d : Char) : Option Nat :=
  match digits2 a b, digits2 c d with
  | some hi, some lo => some (hi * 100 + lo)
  | _, _ => none

/-- Field-range checks applied by `strptime` (day 1-31, month 1-12, hour
0-23, minute 0-59, second 0-61). -/
def dt6Valid (t : DateTime6) : Bool :=
  1 ≤ t.mo && t.mo ≤ 12 && 1 ≤ t.d && t.d ≤ 31 && t.h ≤ 23 && t.mi ≤ 59 && t.s ≤ 61

/-- Modelled from the spec: `datetime.strptime(t, SIGV4_TIMESTAMP)` where
`SIGV4_TIMESTAMP` is the compact ISO form (a compact ISO timestamp,
`YYYYMMDDTHHMMSSZ`).  Returns `none` on the `ValueError` raise. -/
def pyStrptimeSigV4 (s : String) : Option DateTime6 :=
  match s.toList with
  | [y1, y2, y3, y4, m1, m2, d1, d2, t, h1, h2, mi1, mi2, s1, s2, z] =>
    if t = 'T' && z = 'Z' then
      match digits4 y1 y2 y3 y4, digits2 m1 m2, digits2 d1 d2,
            digits2 h1 h2, digits2 mi1 mi2, digits2 s1 s2 with
      | some y, some mo, some d, some h, some mi, some sec =>
        let dt : DateTime6 := ⟨y, mo, d, h, mi, sec⟩
        if dt6Valid dt then some dt else none
      | _, _, _, _, _, _ => none
    else none
  | _ => none

/-- Abbreviated month names accepted by `strptime` for the GMT format
(case-insensitive). -/
def monthNum (s : String) : Option Nat :=
  let l := pyLower s
  if l = "jan" then some 1 else if l = "feb" then some 2
  else if l = "mar" then some 3 else if l = "apr" then some 4
  else if l = "may" then some 5 else if l = "jun" then some 6
  else if l = "jul" then some 7 else if l = "aug" then some 8
  else if l = "sep" then some 9 else if l = "oct" then some 10
  else if l = "nov" then some 11 else if l = "dec" then some 12
  else none

/-- Abbreviated weekday names (the parsed weekday is not used further). -/
def weekdayOk (s : String) : Bool :=
  let l := pyLower s
  l = "mon" || l = "tue" || l = "wed" || l = "thu" || l = "fri" ||
  l = "sat" || l = "sun"

/-- Modelled from the spec: `datetime.strptime(t, GMT_FORMAT)` with the
RFC-1123-style GMT format (an explicit date header in RFC-1123-style GMT
format), in its canonical fixed-width form. -/
def pyStrptimeGMT (s : String) : Option DateTime6 :=
  match s.toList with
  | [w1, w2, w3, co, sp1, d1, d2, sp2, b1, b2, b3, sp3, y1, y2, y3, y4,
     sp4, h1, h2, c1, mi1, mi2, c2, s1, s2, sp5, g1, g2, g3] =>
    if weekdayOk (String.mk [w1, w2, w3]) && co = ',' && sp1 = ' ' &&
       sp2 = ' ' && sp3 = ' ' && sp4 = ' ' && c1 = ':' && c2 = ':' &&
       sp5 = ' ' && pyLower (String.mk [g1, g2, g3]) = "gmt" then
      match digits2 d1 d2, monthNum (String.mk [b1, b2, b3]),
            digits4 y1 y2 y3 y4, digits2 h1 h2, digits2 mi1 mi2,
            digits2 s1 s2 with
      | some d, some mo, some y, some h, some mi, some sec =>
        let dt : DateTime6 := ⟨y, mo, d, h, mi, sec⟩
        if dt6Valid dt then some dt else none
      | _, _, _, _, _, _ => none
    else none
  | _ => none

/-- Zero-padded two-digit rendering (`strftime` field). -/
def pad2 (n : Nat) : String :=
  if n < 10 then "0" ++ toString n else toString n

/-- Zero-padded four-digit rendering (`strftime` field). -/
def pad4 (n : Nat) : String :=
  if n < 10 then "000" ++ toString n
  else if n < 100 then "00" ++ toString n
  else if n < 1000 then "0" ++ toString n
  else toString n

/-- Python `dt.strftime(SIGV4_TIMESTAMP)` (`auth.py:220`). -/
def fmtSigV4 (t : DateTime6) : String :=
  pad4 t.y ++ pad2 t.mo ++ pad2 t.d ++ "T" ++ pad2 t.h ++ pad2 t.mi ++
  pad2 t.s ++ "Z"

/-! ### The request and the external collaborators of the authenticator -/

/-- The parts of a Django REST framework request that `S3V4Authentication`
reads.  `headers` lookups are case-insensitive (Django `HttpHeaders`);
`queryParams` models the `QueryDict` whose `get` returns the last value of
a key; `authorization` is the raw Authorization header (empty when the
header is absent, as `get_authorization_header` returns `b''`). -/
structure SRequest where
  method : String
  path : String
  queryParams : List (String × String)
  headers : List (String × String)
  authorization : String

/-- Django `QueryDict.get` / `__getitem__`: the last value of a key. -/
def qget (q : List (String × String)) (k : String) : Option String :=
  ((q.filter (fun p => p.1 = k)).getLast?).map (fun p => p.2)

/-- Django `HttpHeaders` lookup: case-insensitive on names. -/
def hget (h : List (String × String)) (k : String) : Option String :=
  (h.find? (fun p => pyLower p.1 = pyLower k)).map (fun p => p.2)

/-- The `hashlib` / `hmac` library primitives used by `auth.py`, as
parameters of the embedding (their values are opaque to the control flow
being verified). -/
structure CryptoModel where
  sha256hex : String → String
  hmacDigest : List UInt8 → String → List UInt8
  hmacHex : List UInt8 → String → String

/-- Modelled from the spec: one record of the external credential store
(`users.models.AuthKey`, not under `src/`): secret key, owning-principal
active flag (`user.is_active`), key active flag (`is_key_active`). -/
structure AuthKeyRec where
  secretKey : String
  userActive : Bool
  keyActive : Bool
  deriving DecidableEq

/-- The dict built by `parse_auth_key_string` (`auth.py:121-135`); a field
is `none` when the name never occurred, so a later `credentials.get(...)`
yields Python `None`. -/
structure CredsDict where
  credential : Option String
  signedHeaders : Option String
  signature : Option String
  deriving DecidableEq

/-- The dynamic type of the `credentials` local of `authenticate`
(`auth.py:36-44`): `None`, the header dict, or — through the defect at
line 39 — the plain timestamp string returned by
`get_timestamp_from_query`. -/
inductive CredsVal
  | pynone
  | pydict (d : CredsDict)
  | pystr (s : String)
  deriving DecidableEq

/-! ### `auth.py` translation -/

/-- The `parse_auth_key_string` loop body state: write one `name=val` pair into
the result dict (later pairs overwrite earlier ones, as Python dict
assignment does). -/
def setCredsField (d : CredsDict) (name v : String) : CredsDict :=
  if name = "Credential" then { d with credential := some v }
  else if name = "SignedHeaders" then { d with signedHeaders := some v }
  else { d with signature := some v }

/-- The `for a in auth` loop of `parse_auth_key_string` (`auth.py:128-133`):
strip spaces, split once on `=` (raising `ValueError` when no `=` occurs,
from tuple unpacking), reject names outside the three allowed ones. -/
def parseAuthItems : List String → CredsDict → Except PyErr CredsDict
  | [], d => Except.ok d
  | a :: rest, d =>
    let a' := pyStripChar ' ' a
    match pySplitOnceChar '=' a' with
    | [name, v] =>
      if name = "Credential" || name = "SignedHeaders" || name = "Signature"
      then parseAuthItems rest (setCredsField d name v)
      else Except.error (PyErr.s3 S3ErrorKind.authorizationHeaderMalformed)
    | _ => Except.error PyErr.valueError

/-- Translation of `S3V4Authentication.parse_auth_key_string` (`auth.py:121-135`). -/
def parse_auth_key_string (s : String) : Except PyErr CredsDict :=
  let auth := pySplitChar ',' s
  if auth.length ≠ 3 then
    Except.error (PyErr.s3 S3ErrorKind.authorizationHeaderMalformed)
  else parseAuthItems auth ⟨none, none, none⟩

/-- Translation of `S3V4Authentication.get_timestamp_from_header` (`auth.py:214-228`). -/
def get_timestamp_from_header (req : SRequest) : Except PyErr String :=
  match hget req.headers "Date" with
  | some t =>
    match pyStrptimeGMT t with
    | none => Except.error PyErr.valueError
    | some dt => Except.ok (fmtSigV4 dt)
  | none =>
    match hget req.headers "X-Amz-Date" with
    | some t =>
      match pyStrptimeSigV4 t with
      | none => Except.error PyErr.valueError
      | some _ => Except.ok t
    | none => Except.ok ""

/-- Translation of `S3V4Authentication.get_timestamp_from_query` (`auth.py:230-237`):
returns the empty string when the query parameter is absent, otherwise the
raw parameter after a `strptime` validity check. -/
def get_timestamp_from_query (req : SRequest) : Except PyErr String :=
  match qget req.queryParams "X-Amz-Date" with
  | none => Except.ok ""
  | some t =>
    match pyStrptimeSigV4 t with
    | none => Except.error PyErr.valueError
    | some _ => Except.ok t

/-- Translation of `S3V4Authentication.get_credentials_from_header` (`auth.py:46-68`).
The result pairs the parsed dict with the `s3_timestamp` context value set
at line 67.  (The `UnicodeError` branch of `.decode()` is not reachable in
this embedding, whose strings are well-formed by construction.) -/
def get_credentials_from_header (req : SRequest) :
    Except PyErr (Option (CredsDict × String)) :=
  match pySplitWsOnce req.authorization with
  | [] => Except.ok none
  | a0 :: restL =>
    if pyLower a0 ≠ "aws4-hmac-sha256" then Except.ok none
    else
      match restL with
      | [] => Except.error (PyErr.s3 S3ErrorKind.authorizationHeaderMalformed)
      | rest :: _ => do
        let ts ← get_timestamp_from_header req
        let d ← parse_auth_key_string rest
        Except.ok (some (d, ts))

/-- The query credentials dict of `get_credentials_from_query`
(`auth.py:85-90`); the string fields default to `''` when absent. -/
structure QueryCreds where
  credential : String
  signedHeaders : String
  signature : String
  expires : Int
  deriving DecidableEq

/-- Translation of `S3V4Authentication.get_credentials_from_query` (`auth.py:70-90`).
Pairs the dict with the `s3_timestamp` context value set at line 83.  Note
`int(request.query_params.get('X-Amz-Expires', ))` calls `.get` with no
default, so a missing parameter reaches `int(None)` and raises
`TypeError`. -/
def get_credentials_from_query (req : SRequest) :
    Except PyErr (Option (QueryCreds × String)) :=
  match qget req.queryParams "X-Amz-Algorithm" with
  | none => Except.ok none
  | some a =>
    if a ≠ "AWS4-HMAC-SHA256" then
      Except.error (PyErr.s3 S3ErrorKind.authorizationHeaderMalformed)
    else do
      let ts ← get_timestamp_from_query req
      let ex ← pyIntOfOption (qget req.queryParams "X-Amz-Expires")
      Except.ok (some
        (⟨(qget req.queryParams "X-Amz-Credential").getD "",
          (qget req.queryParams "X-Amz-SignedHeaders").getD "",
          (qget req.queryParams "X-Amz-Signature").getD "", ex⟩, ts))

/-- The `_header_value` helper composed with the join at `auth.py:159`:
`' '.join(v.split())` — trim and collapse whitespace runs. -/
def pyHeaderValue (v : String) : String :=
  String.intercalate " " (pyWsSplit v)

/-- Translation of `S3V4Authentication.canonical_headers` (`auth.py:148-161`): one
`key:value` line per signed header name; a header missing from the request
makes `_header_value(None)` raise `AttributeError`. -/
def canonical_headers (req : SRequest) (sh : String) : Except PyErr String := do
  let hs ← (pySplitChar ';' sh).mapM (fun key =>
    match hget req.headers key with
    | none => Except.error PyErr.attributeError
    | some v => Except.ok (key ++ ":" ++ pyHeaderValue v))
  Except.ok (String.intercalate "\n" hs)

/-- Translation of `S3V4Authentication.canonical_query_string` (`auth.py:174-186`). -/
def canonical_query_string (req : SRequest) : String :=
  let names := pySorted (dedupKeys (req.queryParams.map (fun p => p.1)))
  String.intercalate "&" (names.map (fun n =>
    pyQuote ['-', '_', '.', '~'] n ++ "=" ++
    pyQuote ['-', '_', '.', '~'] ((qget req.queryParams n).getD "")))

/-- Translation of `S3V4Authentication.canonical_request` (`auth.py:163-172`): the missing
payload-hash header raises `KeyError` from the subscript at line 170. -/
def canonical_request (req : SRequest) (sh : String) : Except PyErr String := do
  let ch ← canonical_headers req sh
  match hget req.headers "X-Amz-Content-SHA256" with
  | none => Except.error PyErr.keyError
  | some bc =>
    Except.ok (String.intercalate "\n"
      [pyUpper req.method, pyQuote ['/'] req.path, canonical_query_string req,
       ch ++ "\n", sh, bc])

/-- Translation of `S3V4Authentication.credential_scope` (`auth.py:211-212`):
`credential.split('/', maxsplit=1)[-1]`. -/
def credential_scope (credential : String) : String :=
  ((pySplitOnceChar '/' credential).getLast?).getD ""

/-- Translation of `S3V4Authentication.string_to_sign` (`auth.py:196-206`). -/
def string_to_sign (m : CryptoModel) (ts credential cr : String) : String :=
  String.intercalate "\n"
    ["AWS4-HMAC-SHA256", ts, credential_scope credential, m.sha256hex cr]

/-- Translation of `S3V4Authentication.signature` (`auth.py:239-245`): the iterated
keyed-hash chain. -/
def signature_chain (m : CryptoModel)
    (ts region service secret sts : String) : String :=
  let kDate := m.hmacDigest (strBytes ("AWS4" ++ secret)) (ts.take 8)
  let kRegion := m.hmacDigest kDate region
  let kService := m.hmacDigest kRegion service
  let kSigning := m.hmacDigest kService "aws4_request"
  m.hmacHex kSigning sts

/-- The body of the `try` block of `generate_signature` (`auth.py:141-144`).
`sh?` is the `signed_headers` argument (Python `None` when the header dict
lacked it, making `.split(';')` raise `AttributeError`); `ts?` is the
`s3_timestamp` context attribute (`none` when it was never assigned, making
the attribute access raise `AttributeError`). -/
def sig_pipeline (m : CryptoModel) (req : SRequest) (ts? : Option String)
    (credential region service : String) (sh? : Option String)
    (secret : String) : Except PyErr String := do
  let sh ← (match sh? with
    | some s => Except.ok s
    | none => Except.error PyErr.attributeError)
  let cr ← canonical_request req sh
  let ts ← (match ts? with
    | some t => Except.ok t
    | none => Except.error PyErr.attributeError)
  Except.ok (signature_chain m ts region service secret
    (string_to_sign m ts credential cr))

/-- Translation of `S3V4Authentication.generate_signature` (`auth.py:140-146`): any
exception in the pipeline is replaced by
`S3AuthorizationHeaderMalformed`. -/
def generate_signature (m : CryptoModel) (req : SRequest) (ts? : Option String)
    (credential region service : String) (sh? : Option String)
    (secret : String) : Except PyErr String :=
  match sig_pipeline m req ts? credential region service sh? secret with
  | Except.ok s => Except.ok s
  | Except.error _ =>
    Except.error (PyErr.s3 S3ErrorKind.authorizationHeaderMalformed)

/-- Translation of `S3V4Authentication.authenticate_credentials` (`auth.py:92-119`).
`lookup` is the external `AuthKey.objects.get` (`DoesNotExist` mapped to
`none`).  A non-dict `credentials` value raises `AttributeError` at
`credentials.get(...)`; a `None` credential raises `AttributeError` at
`.split('/')`; a split arity other than 5 raises `ValueError` from tuple
unpacking. -/
def authenticate_credentials (m : CryptoModel)
    (lookup : String → Option AuthKeyRec) (req : SRequest)
    (ts? : Option String) (cv : CredsVal) : Except PyErr AuthKeyRec :=
  match cv with
  | CredsVal.pydict d =>
    (match d.credential with
     | none => Except.error PyErr.attributeError
     | some credential =>
       match pySplitChar '/' credential with
       | [access_key, _, region, service, _] =>
         (match lookup access_key with
          | none => Except.error (PyErr.s3 S3ErrorKind.invalidAccessKeyId)
          | some k =>
            if !k.userActive then
              Except.error (PyErr.s3 S3ErrorKind.invalidAccessKeyId)
            else if !k.keyActive then
              Except.error (PyErr.s3 S3ErrorKind.invalidAccessKeyId)
            else
              match generate_signature m req ts? credential region service
                  d.signedHeaders k.secretKey with
              | Except.error e => Except.error e
              | Except.ok sig =>
                if d.signature = some sig then Except.ok k
                else Except.error
                  (PyErr.s3 S3ErrorKind.authorizationHeaderMalformed))
       | _ => Except.error PyErr.valueError)
  | _ => Except.error PyErr.attributeError

/-- Translation of `S3V4Authentication.authenticate` (`auth.py:36-44`).  When the header
yields no credentials, line 39 calls `get_timestamp_from_query` (not
`get_credentials_from_query`), so `credentials` becomes a plain string —
never `None` — and `s3_timestamp` is never assigned on that path. -/
def authenticate (m : CryptoModel) (lookup : String → Option AuthKeyRec)
    (req : SRequest) : Except PyErr (Option AuthKeyRec) := do
  let hdr ← get_credentials_from_header req
  let cvts ← (match hdr with
    | some (d, ts) => Except.ok (CredsVal.pydict d, some ts)
    | none => do
      let t ← get_timestamp_from_query req
      Except.ok (CredsVal.pystr t, (none : Option String)))
  match cvts.1 with
  | CredsVal.pynone => Except.ok none
  | cv => do
    let k ← authenticate_credentials m lookup req cvts.2 cv
    Except.ok (some k)

/-! ### Concrete fixtures for the authenticator theorems -/

/-- A trivial instantiation of the crypto parameters (the verified
properties hold for every `CryptoModel`; a computable one is needed to
evaluate the embedding on concrete requests). -/
def cm0 : CryptoModel :=
  ⟨fun s => "h" ++ s, fun _ _ => [], fun _ _ => "SIG"⟩

/-- A credential store with no keys. -/
def lookup0 : String → Option AuthKeyRec := fun _ => none

/-- A credential store holding one active key under id `AK`. -/
def lookup1 : String → Option AuthKeyRec :=
  fun a => if a = "AK" then some ⟨"sk", true, true⟩ else none

/-- A minimal request. -/
def req0 : SRequest := ⟨"GET", "/", [], [], ""⟩

/-- A presigned-query request: no Authorization header, full signed-query
credentials. -/
def reqC1 : SRequest :=
  ⟨"GET", "/b/k",
   [("X-Amz-Algorithm", "AWS4-HMAC-SHA256"),
    ("X-Amz-Credential", "AK/20200101/r/s3/aws4_request"),
    ("X-Amz-SignedHeaders", "host"),
    ("X-Amz-Signature", "abc"),
    ("X-Amz-Date", "20200101T000000Z"),
    ("X-Amz-Expires", "86400")],
   [("Host", "example.com")], ""⟩

/-- A header-authenticated request carrying a payload-hash header and the
one signed header. -/
def reqC8 : SRequest :=
  ⟨"GET", "/", [],
   [("Host", "h.example"), ("X-Amz-Content-SHA256", "UNSIGNED-PAYLOAD")],
   "AWS4-HMAC-SHA256 Credential=AK/d/r/s3/aws4_request,SignedHeaders=host,Signature=bad"⟩

/-- C1: the claim says a request without the Authorization scheme has its
credentials extracted from the signed query parameters and verified.  The
code instead calls `get_timestamp_from_query` at `auth.py:39`, so the
timestamp string reaches `authenticate_credentials` as the credentials
value and the request crashes with a raw `AttributeError`, while
`get_credentials_from_query` — which would extract exactly the claimed
dict — is never called. -/
theorem c1_authenticate_query_bug :
    authenticate cm0 lookup0 reqC1 = Except.error PyErr.attributeError ∧
    get_credentials_from_query reqC1 =
      Except.ok (some (⟨"AK/20200101/r/s3/aws4_request", "host", "abc", 86400⟩,
        "20200101T000000Z")) := by
  exact ⟨rfl, rfl⟩

/-- C8: every error of `generate_signature` is the single malformed
authorization error (any exception in the canonical-request /
string-to-sign / signature pipeline is coalesced), and a computed signature
that is not string-equal to the supplied one also yields exactly that
error, never a distinct signature-mismatch code. -/
theorem c8_malformed_coalescing :
    (∀ (m : CryptoModel) (req : SRequest) (ts? : Option String)
       (credential region service : String) (sh? : Option String)
       (secret : String) (e : PyErr),
       generate_signature m req ts? credential region service sh? secret =
         Except.error e →
       e = PyErr.s3 S3ErrorKind.authorizationHeaderMalformed) ∧
    (∀ (m : CryptoModel) (lookup : String → Option AuthKeyRec)
       (req : SRequest) (ts? : Option String) (d : CredsDict)
       (c a b r s t : String) (k : AuthKeyRec) (sig : String),
       d.credential = some c →
       pySplitChar '/' c = [a, b, r, s, t] →
       lookup a = some k →
       k.userActive = true →
       k.keyActive = true →
       generate_signature m req ts? c r s d.signedHeaders k.secretKey =
         Except.ok sig →
       d.signature ≠ some sig →
       authenticate_credentials m lookup req ts? (CredsVal.pydict d) =
         Except.error (PyErr.s3 S3ErrorKind.authorizationHeaderMalformed)) := by
  constructor
  · intro m req ts? credential region service sh? secret e h
    unfold generate_signature at h
    split at h
    · exact absurd h (by simp)
    · simpa using h.symm
  · intro m lookup req ts? d c a b r s t k sig hcred hsplit hlookup hua hka
      hgen hne
    simp only [authenticate_credentials, hcred, hsplit, hlookup, hua, hka,
      hgen, Bool.not_true, Bool.false_eq_true, if_false]
    rw [if_neg hne]

/-- Witness for C8: a concrete active key, a well-formed request, and a
wrong supplied signature produce the malformed-authorization error. -/
theorem c8_witness :
    authenticate_credentials cm0 lookup1 reqC8 (some "20200101T000000Z")
      (CredsVal.pydict ⟨some "AK/d/r/s3/aws4_request", some "host", some "bad"⟩) =
      Except.error (PyErr.s3 S3ErrorKind.authorizationHeaderMalformed) :=
  c8_malformed_coalescing.2 cm0 lookup1 reqC8 (some "20200101T000000Z")
    ⟨some "AK/d/r/s3/aws4_request", some "host", some "bad"⟩
    "AK/d/r/s3/aws4_request" "AK" "d" "r" "s3" "aws4_request"
    ⟨"sk", true, true⟩ "SIG" rfl (by decide) rfl rfl rfl rfl (by decide)

/-- C9 counterexample: a credential string with 3 `/`-separated fields makes
`authenticate_credentials` raise a raw `ValueError` (from tuple unpacking at
`auth.py:100`), not a structured S3 authentication error. -/
theorem c9_counterexample :
    authenticate_credentials cm0 lookup0 req0 (some "t")
      (CredsVal.pydict ⟨some "a/b/c", some "host", some "x"⟩) =
      Except.error PyErr.valueError := by
  exact rfl

/-- C9 (amended): a credential string whose `/`-split arity is not 5 makes
authentication fail by propagating a raw unhandled `ValueError`, not by
raising a structured S3 error. -/
theorem c9_arity_raw_value_error :
    ∀ (m : CryptoModel) (lookup : String → Option AuthKeyRec)
      (req : SRequest) (ts? : Option String) (d : CredsDict) (c : String),
      d.credential = some c →
      (pySplitChar '/' c).length ≠ 5 →
      authenticate_credentials m lookup req ts? (CredsVal.pydict d) =
        Except.error PyErr.valueError := by
  intro m lookup req ts? d c hcred hlen
  simp only [authenticate_credentials, hcred]
  rcases hs : pySplitChar '/' c with _ | ⟨a, _ | ⟨b, _ | ⟨r, _ | ⟨s,
    _ | ⟨t, _ | ⟨u, rest⟩⟩⟩⟩⟩⟩ <;>
    simp_all

/-- Witness for C9: a two-field credential string yields the raw
`ValueError`. -/
theorem c9_witness :
    authenticate_credentials cm0 lookup0 req0 (some "t")
      (CredsVal.pydict ⟨some "x/y", none, none⟩) =
      Except.error PyErr.valueError :=
  c9_arity_raw_value_error cm0 lookup0 req0 (some "t")
    ⟨some "x/y", none, none⟩ "x/y" rfl (by decide)

/-- C10: the header credential parser accepts three pairs with repeated
names (no distinctness check), leaving the other entries absent; feeding
such a dict to the credential-verification step dereferences the missing
(`None`) credential and raises a raw unhandled `AttributeError`, not an
authentication error. -/
theorem c10_duplicate_names_accepted :
    parse_auth_key_string "Credential=a,Credential=b,Credential=c" =
      Except.ok ⟨some "c", none, none⟩ ∧
    parse_auth_key_string "SignedHeaders=a,SignedHeaders=b,SignedHeaders=c" =
      Except.ok ⟨none, some "c", none⟩ ∧
    authenticate_credentials cm0 lookup0 req0 (some "t")
      (CredsVal.pydict ⟨none, some "c", none⟩) =
      Except.error PyErr.attributeError := by
  exact ⟨rfl, rfl, rfl⟩

/-! ### `handlers.py` translation — data model and external oracles

The multipart handler talks to external collaborators (the upload-session
model, the part metadata store, the rados byte store).  Their *outcomes*
(success flags of deletions and writes, streamed block sizes, elapsed wall
time per step) are oracle inputs; all branching, error classification,
retry structure and state transitions below are translated from
`src/s3api/handlers.py`. -/

/-- The `S3_MULTIPART_UPLOAD_MIN_SIZE` default (`handlers.py:20`): 5 MiB. -/
def MULTIPART_UPLOAD_MIN_SIZE : Nat := 5 * 1024 * 1024

/-- The states of an upload session (spec §3 `UploadSession`), plus
`deleted` for a session whose record was removed by `safe_delete`. -/
inductive UState
  | uploading
  | composing
  | completed
  | deleted
  deriving DecidableEq

/-- The world state the handler mutates: the session state and the size of
the destination object's backing bytes in the rados store. -/
structure MWorld where
  uploadState : UState
  objBytes : Nat
  deriving DecidableEq

/-- Modelled from the spec: `MultipartUpload.set_composing` (the model class
lives outside `src/`) — the atomic compare-and-set entering `composing`
only from `uploading`; `dbOk` is the store's success oracle. -/
def set_composing (dbOk : Bool) (s : UState) : Bool × UState :=
  if dbOk ∧ s = UState.uploading then (true, UState.composing) else (false, s)

/-- Modelled from the spec: `MultipartUpload.set_uploading` — revert the
session to `uploading`. -/
def set_uploading (_s : UState) : UState := UState.uploading

/-- Modelled from the spec: `MultipartUpload.set_completed` — force the
session to `completed` (the deletion-failure tombstone). -/
def set_completed (_s : UState) : UState := UState.completed

/-- Modelled from the spec: `MultipartUpload.safe_delete` — delete the
session record, reporting success; `ok` is the store's success oracle. -/
def safe_delete (ok : Bool) (s : UState) : Bool × UState :=
  if ok then (true, UState.deleted) else (false, s)

/-- One stored part's metadata (`ObjectPart` fields read by the handler). -/
structure PartEntry where
  part_num : Nat
  size : Nat
  part_md5 : String
  deriving DecidableEq

/-- One entry of the client's completion request (`complete_parts[num]`):
whether an `ETag` key is present and its value. -/
structure CompletePart where
  etag : Option String
  deriving DecidableEq

/-- Python dict lookup on an association list with unique keys
(`d[k]`-style access returns `none` for the `KeyError` case). -/
def dictGet {α : Type} (l : List (Nat × α)) (k : Nat) : Option α :=
  (l.find? (fun p => p.1 = k)).map (fun p => p.2)

/-- Python dict assignment `d[k] = v` on an association list. -/
def dictSet {α : Type} : List (Nat × α) → Nat → α → List (Nat × α)
  | [], k, v => [(k, v)]
  | (k', v') :: rest, k, v =>
    if k' = k then (k, v) :: rest else (k', v') :: dictSet rest k v

/-- The `for part in upload_parts_qs` loop of
`get_upload_parts_and_validate` (`handlers.py:348-363`), carrying the
accumulated used dict, unused list, and the part-hash sequence fed to the
ETag handler. -/
def validateGo (complete_parts : List (Nat × CompletePart))
    (complete_numbers : List Nat) (last : Nat) :
    List PartEntry → List (Nat × PartEntry) → List PartEntry → List String →
    Except PyErr (List (Nat × PartEntry) × List PartEntry × List String)
  | [], used, unused, md5s => Except.ok (used, unused, md5s)
  | p :: rest, used, unused, md5s =>
    if complete_numbers.contains p.part_num then
      match dictGet complete_parts p.part_num with
      | none => Except.error PyErr.keyError
      | some c =>
        if p.size < MULTIPART_UPLOAD_MIN_SIZE ∧ p.part_num ≠ last then
          Except.error (PyErr.s3 S3ErrorKind.entityTooSmall)
        else
          match c.etag with
          | none => Except.error (PyErr.s3 S3ErrorKind.invalidPart)
          | some et =>
            if pyStripChar '"' et ≠ p.part_md5 then
              Except.error (PyErr.s3 S3ErrorKind.invalidPart)
            else
              validateGo complete_parts complete_numbers last rest
                (dictSet used p.part_num p) unused (md5s ++ [p.part_md5])
    else validateGo complete_parts complete_numbers last rest used
      (unused ++ [p]) md5s

/-- Translation of `MultipartUploadHandler.get_upload_parts_and_validate`
(`handlers.py:324-370`).  `md5c` is the external
`S3ObjectMultipartETagHandler` digest (`utils/md5.py`, outside `src/`),
applied to the used parts' hashes in stored order;
`complete_numbers[-1]` on an empty list raises `IndexError`. -/
def get_upload_parts_and_validate (md5c : List String → String)
    (upload_parts : List PartEntry)
    (complete_parts : List (Nat × CompletePart))
    (complete_numbers : List Nat) :
    Except PyErr (List (Nat × PartEntry) × List PartEntry × String) :=
  match complete_numbers.getLast? with
  | none => Except.error PyErr.indexError
  | some last =>
    match validateGo complete_parts complete_numbers last upload_parts
        [] [] [] with
    | Except.error e => Except.error e
    | Except.ok (used, unused, md5s) =>
      if used.length ≠ complete_parts.length then
        Except.error (PyErr.s3 S3ErrorKind.invalidPart)
      else
        Except.ok (used, unused,
          "\"" ++ md5c md5s ++ "-" ++ toString used.length ++ "\"")

/-! ### The part-cleanup primitive (`clear_parts_cache_iter`) -/

/-- Outcome oracle for processing one part inside
`clear_parts_cache_iter`: the two metadata-deletion attempts
(`p.safe_delete()` and its retry, `handlers.py:144-146`), the two rados
deletions (`handlers.py:149-151`, best-effort, observable in no result),
and the wall time the iteration consumed. -/
structure CleanPartEnv where
  mdOk1 : Bool
  mdOk2 : Bool
  radosOk1 : Bool
  radosOk2 : Bool
  elapsed : Nat
  deriving DecidableEq

/-- All-succeeding, instantaneous oracle. -/
def defaultCleanEnv : CleanPartEnv := ⟨true, true, true, true, 0⟩

/-- One yield of the `clear_parts_cache_iter` generator: a keep-alive
(`yield None`) or the final list of parts whose metadata deletion failed
twice. -/
inductive CleanYield
  | keepAlive
  | final (failed : List PartEntry)
  deriving DecidableEq

/-- The loop of `clear_parts_cache_iter` (`handlers.py:139-161`): threading
`start_time` and the clock exactly as the source does — a check below 10
seconds resets `start_time`; a check at 10 or more yields a keep-alive and
leaves `start_time` unchanged. -/
def clearPartsGo (is_rm : Bool) :
    List (PartEntry × CleanPartEnv) → Nat → Nat → List PartEntry →
    List CleanYield × Nat
  | [], _, clk, failed => ([CleanYield.final failed], clk)
  | pe :: rest, st, clk, failed =>
    let failed' :=
      if is_rm && !pe.2.mdOk1 && !pe.2.mdOk2 then failed ++ [pe.1] else failed
    let clk' := clk + pe.2.elapsed
    if clk' - st < 10 then clearPartsGo is_rm rest clk' clk' failed'
    else
      let r := clearPartsGo is_rm rest st clk' failed'
      (CleanYield.keepAlive :: r.1, r.2)

/-- Translation of `MultipartUploadHandler.clear_parts_cache_iter` (`handlers.py:125-161`).
`items` pairs each part with its deletion/timing oracle (a dict argument is
iterated over its values, so a list input covers both source cases);
`clock` is the wall time at generator start. -/
def clear_parts_cache_iter (is_rm : Bool)
    (items : List (PartEntry × CleanPartEnv)) (clock : Nat) :
    List CleanYield × Nat :=
  clearPartsGo is_rm items clock clock []

/-- Pair each part with its oracle (missing oracles default to success). -/
def zipCleanEnvs (parts : List PartEntry) (envs : List CleanPartEnv) :
    List (PartEntry × CleanPartEnv) :=
  parts.enum.map (fun ie => (ie.2, envs.getD ie.1 defaultCleanEnv))

/-! ### The streamed completion (`complete_iter`) -/

/-- One output chunk of the completion response stream: the XML
declaration (`handlers.py:166`), the single-space filler
(`handlers.py:165`), or the terminal success/error payload (rendered by
the external XML renderer; `withDecl` is its `with_xml_declaration`
flag). -/
inductive Chunk
  | xmlDecl
  | space
  | successPayload (etag : String) (withDecl : Bool)
  | errorPayload (code : S3ErrorKind) (withDecl : Bool)
  deriving DecidableEq

/-- The first-flush rule of `complete_iter` (`handlers.py:181-186` etc.):
the first flush is the XML declaration, later ones a space; returns the
chunk and the updated `yielded_doctype` flag. -/
def flushChunk (b : Bool) : Chunk × Bool :=
  if b then (Chunk.space, true) else (Chunk.xmlDecl, true)

/-- The consumer loops at `handlers.py:212-218` and `221-227`: each
keep-alive yield of the cleanup generator becomes a flush; the final
failed-parts yield is ignored (it matches no `if r is None` branch). -/
def consumeCleanYields (b : Bool) : List CleanYield → List Chunk × Bool
  | [] => ([], b)
  | CleanYield.keepAlive :: rest =>
    let cb := flushChunk b
    let r := consumeCleanYields cb.2 rest
    (cb.1 :: r.1, r.2)
  | CleanYield.final _ :: rest => consumeCleanYields b rest

/-- Outcome oracle for one streamed data block inside
`save_part_to_object_iter` (`handlers.py:296-315`): block length, the two
`obj_rados.write` attempts, elapsed wall time. -/
structure BlockEnv where
  len : Nat
  writeOk1 : Bool
  writeOk2 : Bool
  elapsed : Nat
  deriving DecidableEq

/-- Oracle for one part's combine step: its streamed blocks and the
`part.save` outcome (`handlers.py:317-320`). -/
structure PartIterEnv where
  blocks : List BlockEnv
  saveOk : Bool
  deriving DecidableEq

/-- Default oracle: no data blocks, metadata save succeeds. -/
def defaultPartIterEnv : PartIterEnv := ⟨[], true⟩

/-- Result of consuming `save_part_to_object_iter` inside `complete_iter`
(`handlers.py:178-190`): emitted chunks, the updated first-flush flag,
clock, destination bytes, and the `S3Error` the consumer re-raises when
the generator yields one. -/
structure SaveOut where
  chunks : List Chunk
  flag : Bool
  clock : Nat
  objBytes : Nat
  err : Option S3ErrorKind
  deriving DecidableEq

/-- The block loop of `save_part_to_object_iter` (`handlers.py:296-315`)
as consumed by `complete_iter`: a write failing both attempts yields
`S3InternalError` (which the consumer raises, abandoning the generator);
a successful write extends the destination bytes; the keep-alive timer is
the same reset-on-fast-check pattern; after the blocks, a failing
`part.save` yields `S3InternalError`, otherwise `True` ends the loop. -/
def savePartGo (saveOk : Bool) :
    List BlockEnv → Nat → Nat → Nat → Bool → Nat → SaveOut
  | [], _, _, clk, b, ob =>
    if saveOk then ⟨[], b, clk, ob, none⟩
    else ⟨[], b, clk, ob, some S3ErrorKind.internalError⟩
  | blk :: rest, off, st, clk, b, ob =>
    if blk.writeOk1 || blk.writeOk2 then
      let ob' := max ob (off + blk.len)
      let off' := off + blk.len
      let clk' := clk + blk.elapsed
      if clk' - st < 10 then savePartGo saveOk rest off' clk' clk' b ob'
      else
        let cb := flushChunk b
        let r := savePartGo saveOk rest off' st clk' cb.2 ob'
        ⟨cb.1 :: r.chunks, r.flag, r.clock, r.objBytes, r.err⟩
    else ⟨[], b, clk, ob, some S3ErrorKind.internalError⟩

/-- Translation of `MultipartUploadHandler.save_part_to_object_iter`
(`handlers.py:270-322`) as consumed by the combine loop: `offset` is the
part's object offset, `clock` the wall time at generator start. -/
def save_part_to_object_iter (pe : PartIterEnv) (offset clock : Nat)
    (b : Bool) (ob : Nat) : SaveOut :=
  savePartGo pe.saveOk pe.blocks offset clock clock b ob

/-- Result of the combine loop over `complete_numbers`. -/
structure CombOut where
  chunks : List Chunk
  flag : Bool
  clock : Nat
  offset : Nat
  objBytes : Nat
  err : Option PyErr
  deriving DecidableEq

/-- The `for num in complete_numbers` loop of `complete_iter`
(`handlers.py:176-203`): look the part up in the used dict (`KeyError` on
a miss), consume its save generator, advance the offset by the part's
metadata size, then run the outer keep-alive check (same
reset-on-fast-check timer, sharing the generator-wide `start_time`). -/
def combineGo (used : List (Nat × PartEntry)) :
    List (Nat × PartIterEnv × Nat) → Nat → Nat → Nat → Bool → Nat → CombOut
  | [], off, _, clk, b, ob => ⟨[], b, clk, off, ob, none⟩
  | (n, pe, le) :: rest, off, st, clk, b, ob =>
    match dictGet used n with
    | none => ⟨[], b, clk, off, ob, some PyErr.keyError⟩
    | some part =>
      let s := save_part_to_object_iter pe off clk b ob
      match s.err with
      | some k => ⟨s.chunks, s.flag, s.clock, off, s.objBytes,
          some (PyErr.s3 k)⟩
      | none =>
        let off' := off + part.size
        let clk' := s.clock + le
        if clk' - st < 10 then
          let r := combineGo used rest off' clk' clk' s.flag s.objBytes
          ⟨s.chunks ++ r.chunks, r.flag, r.clock, r.offset, r.objBytes, r.err⟩
        else
          let cb := flushChunk s.flag
          let r := combineGo used rest off' st clk' cb.2 s.objBytes
          ⟨s.chunks ++ cb.1 :: r.chunks, r.flag, r.clock, r.offset,
            r.objBytes, r.err⟩

/-- Oracle record for one `complete_iter` run: per-number part oracles and
outer-loop elapsed times (by position), the `update_obj_metedata` outcome
(`handlers.py:206-208`), the cleanup oracles for the unused-parts and
used-parts passes, and the two `upload.safe_delete` attempts
(`handlers.py:230-232`). -/
structure CIEnv where
  partEnvs : List PartIterEnv
  loopElapsed : List Nat
  updateMetaOk : Bool
  unusedEnvs : List CleanPartEnv
  usedEnvs : List CleanPartEnv
  uploadDel1 : Bool
  uploadDel2 : Bool

/-- Pair each completion number with its combine oracle. -/
def zipIterEnvs (numbers : List Nat) (pes : List PartIterEnv)
    (les : List Nat) : List (Nat × PartIterEnv × Nat) :=
  numbers.enum.map (fun inn =>
    (inn.2, pes.getD inn.1 defaultPartIterEnv, les.getD inn.1 0))

/-- Result of the `try` block of `complete_iter` (`handlers.py:169-238`):
the flush chunks emitted so far, the `yielded_doctype` flag, the
destination bytes, and the exception (if any) that escapes to the
`except` clauses. -/
structure TryOut where
  flushes : List Chunk
  flag : Bool
  objBytes : Nat
  err : Option PyErr

/-- The `try` body of `complete_iter`: combine loop, metadata update,
unused-parts cleanup (metadata included), used-parts cleanup (rados
only). -/
def complete_try (env : CIEnv) (numbers : List Nat)
    (used : List (Nat × PartEntry)) (unused : List PartEntry)
    (objBytes clock : Nat) : TryOut :=
  let c := combineGo used (zipIterEnvs numbers env.partEnvs env.loopElapsed)
    0 clock clock false objBytes
  match c.err with
  | some e => ⟨c.chunks, c.flag, c.objBytes, some e⟩
  | none =>
    if !env.updateMetaOk then
      ⟨c.chunks, c.flag, c.objBytes, some (PyErr.s3 S3ErrorKind.internalError)⟩
    else
      let y1 := clear_parts_cache_iter true (zipCleanEnvs unused env.unusedEnvs)
        c.clock
      let f1 := consumeCleanYields c.flag y1.1
      let y2 := clear_parts_cache_iter false
        (zipCleanEnvs (used.map (fun p => p.2)) env.usedEnvs) y1.2
      let f2 := consumeCleanYields f1.2 y2.1
      ⟨c.chunks ++ f1.1 ++ f2.1, f2.2, c.objBytes, none⟩

/-- The `except` clauses map an `S3Error` to its own payload and anything
else to `S3InternalError` (`handlers.py:240-249`). -/
def toS3Kind : PyErr → S3ErrorKind
  | PyErr.s3 k => k
  | _ => S3ErrorKind.internalError

/-- A finished `complete_iter` run: the streamed chunks and the final
world. -/
structure CIOut where
  chunks : List Chunk
  world : MWorld
  deriving DecidableEq

/-- Translation of `MultipartUploadHandler.complete_iter` (`handlers.py:163-249`): run the
`try` body; on success delete the session (twice, falling back to
`set_completed`) and emit the success payload; on any exception revert the
session to `uploading` and emit the error payload instead
(`handlers.py:240-249`). -/
def complete_iter (env : CIEnv) (numbers : List Nat)
    (used : List (Nat × PartEntry)) (unused : List PartEntry) (etag : String)
    (w : MWorld) (clock : Nat) : CIOut :=
  let t := complete_try env numbers used unused w.objBytes clock
  match t.err with
  | some e =>
    ⟨t.flushes ++ [Chunk.errorPayload (toS3Kind e) (!t.flag)],
     ⟨set_uploading w.uploadState, t.objBytes⟩⟩
  | none =>
    let d1 := safe_delete env.uploadDel1 w.uploadState
    let s' :=
      if d1.1 then d1.2
      else
        let d2 := safe_delete env.uploadDel2 d1.2
        if d2.1 then d2.2 else set_completed d2.2
    ⟨t.flushes ++ [Chunk.successPayload etag (!t.flag)], ⟨s', t.objBytes⟩⟩

/-! ### `complete_multipart_upload_handle` and `abort_multipart_upload` -/

/-- Oracle record for the non-streamed part of
`complete_multipart_upload_handle`: the `set_composing` store outcome, the
`get_or_create_obj` `created` flag, the `_pre_reset_upload` outcome, and
the `safe_delete` outcome on an already-completed session. -/
structure HandleEnv where
  setComposingOk : Bool
  created : Bool
  resetOk : Bool
  delOnCompleted : Bool
  deriving DecidableEq

/-- What `complete_multipart_upload_handle` returns when it does not raise:
an error response (`exception_response`) or the validated inputs handed to
the streaming `IterResponse`. -/
inductive HandleResult
  | errResp (k : S3ErrorKind)
  | stream (used : List (Nat × PartEntry)) (unused : List PartEntry)
      (etag : String)
  deriving DecidableEq

/-- The tail of the handle after reset: run validation; its `S3Error`
propagates out of the handle (`handlers.py:117-118`, documented
`:raises: S3Error`) with the world as it stands. -/
def handleValidate (md5c : List String → String)
    (upload_parts : List PartEntry)
    (complete_parts : List (Nat × CompletePart)) (complete_numbers : List Nat)
    (w : MWorld) : Except PyErr HandleResult × MWorld :=
  match get_upload_parts_and_validate md5c upload_parts complete_parts
      complete_numbers with
  | Except.error e => (Except.error e, w)
  | Except.ok r => (Except.ok (HandleResult.stream r.1 r.2.1 r.2.2), w)

/-- Translation of `MultipartUploadHandler.complete_multipart_upload_handle`
(`handlers.py:80-123`): completed-session and composing-session gates, the
`set_composing` compare-and-set, the destination reset for an existing
non-empty object (`_pre_reset_upload` truncates the backing bytes; its
failure returns an `S3InvalidRequest` response), then validation.  The
`_pre_reset_upload` effect is modelled from the spec (reset/truncate the
backing bytes before reuse); `HarborManager` lives outside `src/`. -/
def complete_multipart_upload_handle (env : HandleEnv)
    (md5c : List String → String) (upload_parts : List PartEntry)
    (complete_parts : List (Nat × CompletePart)) (complete_numbers : List Nat)
    (w : MWorld) : Except PyErr HandleResult × MWorld :=
  if w.uploadState = UState.completed then
    let d := safe_delete env.delOnCompleted w.uploadState
    (Except.ok (HandleResult.errResp S3ErrorKind.noSuchUpload),
     ⟨d.2, w.objBytes⟩)
  else if w.uploadState = UState.composing then
    (Except.ok (HandleResult.errResp
      S3ErrorKind.completeMultipartAlreadyInProgress), w)
  else
    let c := set_composing env.setComposingOk w.uploadState
    if !c.1 then
      (Except.ok (HandleResult.errResp S3ErrorKind.internalError), w)
    else
      let w1 : MWorld := ⟨c.2, w.objBytes⟩
      if ¬env.created ∧ w1.objBytes ≠ 0 then
        if env.resetOk then
          handleValidate md5c upload_parts complete_parts complete_numbers
            ⟨w1.uploadState, 0⟩
        else
          (Except.ok (HandleResult.errResp S3ErrorKind.invalidRequest), w1)
      else
        handleValidate md5c upload_parts complete_parts complete_numbers w1

/-- One part of an abort batch with its oracles for the first cleanup pass
and for the per-item retry pass. -/
structure AbortItem where
  part : PartEntry
  pass1 : CleanPartEnv
  pass2 : CleanPartEnv
  deriving DecidableEq

/-- The abort handler's response. -/
inductive AbortResp
  | errResp (k : S3ErrorKind)
  | noContent
  deriving DecidableEq

/-- The final (and only non-`None`) yield of the cleanup generator. -/
def finalFailed (ys : List CleanYield) : List PartEntry :=
  match ys.getLast? with
  | some (CleanYield.final l) => l
  | _ => []

/-- Retry-pass oracle of the item holding a given part (part numbers are
unique within a session). -/
def lookupPass2 (items : List AbortItem) (p : PartEntry) : CleanPartEnv :=
  ((items.find? (fun i => i.part.part_num = p.part_num)).map
    (fun i => i.pass2)).getD defaultCleanEnv

/-- Translation of `MultipartUploadHandler.abort_multipart_upload` (`handlers.py:38-78`):
the composing/completed gates; the first cleanup pass over all parts
(metadata included); if any metadata deletions failed, the majority check
`failed_len > all_len // 2` short-circuits to `S3InternalError`; otherwise
the failed parts are re-run through the cleanup primitive, and — as the
source is written (`handlers.py:70-71`) — an *empty* failed list from that
retry pass returns `S3InternalError`, while a non-empty one falls through;
finally the session record is deleted (no retry) for the 204 response. -/
def abort_multipart_upload (state : UState) (items : List AbortItem)
    (delOnCompleted delFinal : Bool) : AbortResp × UState :=
  if state = UState.composing then
    (AbortResp.errResp S3ErrorKind.completeMultipartAlreadyInProgress, state)
  else if state = UState.completed then
    let d := safe_delete delOnCompleted state
    (AbortResp.errResp S3ErrorKind.noSuchUpload, d.2)
  else
    let y := clear_parts_cache_iter true
      (items.map (fun i => (i.part, i.pass1))) 0
    let failed := finalFailed y.1
    let fin : AbortResp × UState :=
      let d := safe_delete delFinal state
      if d.1 then (AbortResp.noContent, d.2)
      else (AbortResp.errResp S3ErrorKind.internalError, state)
    if failed.isEmpty then fin
    else if failed.length > items.length / 2 then
      (AbortResp.errResp S3ErrorKind.internalError, state)
    else
      let y2 := clear_parts_cache_iter true
        (failed.map (fun p => (p, lookupPass2 items p))) 0
      let failed2 := finalFailed y2.1
      if failed2.isEmpty then
        (AbortResp.errResp S3ErrorKind.internalError, state)
      else fin

/-! ### Lemmas about the cleanup primitive -/

/-- The parts a `clear_parts_cache_iter` run reports as failed: those whose
two metadata-deletion attempts both failed (only when metadata deletion was
requested). -/
def mdFails (is_rm : Bool) (items : List (PartEntry × CleanPartEnv)) :
    List PartEntry :=
  (items.filter (fun x => is_rm && !x.2.mdOk1 && !x.2.mdOk2)).map (fun x => x.1)

/-- The cleanup generator always yields at least its final list. -/
theorem clearPartsGo_ne_nil (is_rm : Bool) :
    ∀ (items : List (PartEntry × CleanPartEnv)) (st clk : Nat)
      (failed : List PartEntry),
      (clearPartsGo is_rm items st clk failed).1 ≠ [] := by
  intro items
  induction items with
  | nil => intro st clk failed; simp [clearPartsGo]
  | cons pe rest ih =>
    intro st clk failed
    simp only [clearPartsGo]
    split
    · exact ih _ _ _
    · simp

/-- A keep-alive in front of a nonempty yield list does not change the
final yield. -/
theorem finalFailed_cons_keepAlive (ys : List CleanYield) (h : ys ≠ []) :
    finalFailed (CleanYield.keepAlive :: ys) = finalFailed ys := by
  cases ys with
  | nil => exact absurd rfl h
  | cons a t => simp [finalFailed, List.getLast?_cons_cons]

/-- The final yield of the cleanup loop is the accumulator extended by the
double-failure parts of the remaining items. -/
theorem clearPartsGo_final (is_rm : Bool) :
    ∀ (items : List (PartEntry × CleanPartEnv)) (st clk : Nat)
      (failed : List PartEntry),
      finalFailed (clearPartsGo is_rm items st clk failed).1 =
        failed ++ mdFails is_rm items := by
  intro items
  induction items with
  | nil => intro st clk failed; simp [clearPartsGo, finalFailed, mdFails]
  | cons pe rest ih =>
    intro st clk failed
    simp only [clearPartsGo]
    by_cases hp : (is_rm && !pe.2.mdOk1 && !pe.2.mdOk2) = true
    · split
      · rw [ih]
        simp [mdFails, List.filter_cons, hp]
      · rw [finalFailed_cons_keepAlive _ (clearPartsGo_ne_nil _ _ _ _ _), ih]
        simp [mdFails, List.filter_cons, hp]
    · split
      · rw [ih]
        simp [mdFails, List.filter_cons, hp]
      · rw [finalFailed_cons_keepAlive _ (clearPartsGo_ne_nil _ _ _ _ _), ih]
        simp [mdFails, List.filter_cons, hp]

/-- The final yield of one full `clear_parts_cache_iter` run. -/
theorem clear_parts_final (is_rm : Bool)
    (items : List (PartEntry × CleanPartEnv)) (clk : Nat) :
    finalFailed (clear_parts_cache_iter is_rm items clk).1 =
      mdFails is_rm items := by
  simpa [clear_parts_cache_iter] using
    clearPartsGo_final is_rm items clk clk []

/-- When every iteration takes less than 10 seconds, the timer is reset at
every check and the cleanup loop never yields a keep-alive, whatever the
total elapsed time. -/
theorem clearPartsGo_no_keepalive (is_rm : Bool) :
    ∀ (items : List (PartEntry × CleanPartEnv)) (clk : Nat)
      (failed : List PartEntry),
      (∀ x ∈ items, x.2.elapsed < 10) →
      (clearPartsGo is_rm items clk clk failed).1 =
        [CleanYield.final (failed ++ mdFails is_rm items)] := by
  intro items
  induction items with
  | nil => intro clk failed _; simp [clearPartsGo, mdFails]
  | cons pe rest ih =>
    intro clk failed hfast
    simp only [clearPartsGo]
    have he : pe.2.elapsed < 10 := hfast pe (by simp)
    rw [if_pos (by omega : clk + pe.2.elapsed - clk < 10)]
    rw [ih (clk + pe.2.elapsed) _ (fun x hx => hfast x (by simp [hx]))]
    by_cases hp : (is_rm && !pe.2.mdOk1 && !pe.2.mdOk2) = true
    · simp [mdFails, List.filter_cons, hp]
    · simp [mdFails, List.filter_cons, hp]

/-! ### Fixtures for the multipart theorems -/

/-- A trivial instantiation of the external ETag digest. -/
def md5c0 : List String → String := fun _ => "M"

/-- A part-cleanup oracle whose two metadata-deletion attempts fail. -/
def failEnv : CleanPartEnv := ⟨false, false, true, true, 0⟩

/-- C2 counterexample: a completion attempt that has entered `composing`
and then fails at the destination-object reset returns the invalid-request
response with the session still in `composing` — it is not reverted to
`uploading`. -/
theorem c2_reset_failure_leaves_composing :
    complete_multipart_upload_handle ⟨true, false, false, true⟩ md5c0 [] [] []
      ⟨UState.uploading, 7⟩ =
    (Except.ok (HandleResult.errResp S3ErrorKind.invalidRequest),
     ⟨UState.composing, 7⟩) := by
  exact rfl

/-- C2 (amended): only the streaming phase guarantees the revert — every
terminating `complete_iter` run leaves the session out of `composing`
(errors revert it to `uploading`, success deletes it or tombstones it
`completed`); failures at destination reset or part validation, which
happen before streaming, leave the session in `composing`. -/
theorem c2_complete_iter_never_composing :
    ∀ (env : CIEnv) (numbers : List Nat) (used : List (Nat × PartEntry))
      (unused : List PartEntry) (etag : String) (w : MWorld) (clock : Nat),
      (complete_iter env numbers used unused etag w clock).world.uploadState ≠
        UState.composing := by
  intro env numbers used unused etag w clock
  simp only [complete_iter]
  split
  · simp [set_uploading]
  · simp only [safe_delete, set_completed]
    split_ifs <;> simp_all

/-- C3 counterexample: a completion over an existing 100-byte object whose
validation fails with entity-too-small reports the validation error after
the backing bytes have already been truncated to 0 — they are not
unchanged. -/
theorem c3_counterexample_truncated_before_validation :
    complete_multipart_upload_handle ⟨true, false, true, true⟩ md5c0
      [⟨1, 4194304, "a"⟩, ⟨2, 1024, "b"⟩] [(1, ⟨some "a"⟩), (2, ⟨some "b"⟩)]
      [1, 2] ⟨UState.uploading, 100⟩ =
    (Except.error (PyErr.s3 S3ErrorKind.entityTooSmall),
     ⟨UState.composing, 0⟩) := by
  exact rfl

/-- C3 (amended): the destination reset precedes validation — when a
completion fails validation, an existing non-empty destination has already
had its backing bytes truncated to 0 (given the reset succeeded), while an
absent or empty destination keeps its bytes unchanged. -/
theorem c3_reset_precedes_validation :
    ∀ (env : HandleEnv) (md5c : List String → String)
      (up : List PartEntry) (cp : List (Nat × CompletePart))
      (cn : List Nat) (w : MWorld) (e : PyErr),
      w.uploadState = UState.uploading →
      env.setComposingOk = true →
      env.resetOk = true →
      get_upload_parts_and_validate md5c up cp cn = Except.error e →
      complete_multipart_upload_handle env md5c up cp cn w =
        (Except.error e,
         ⟨UState.composing,
          if ¬env.created ∧ w.objBytes ≠ 0 then 0 else w.objBytes⟩) := by
  intro env md5c up cp cn w e hw hso hro hval
  simp only [complete_multipart_upload_handle, hw, hso, hro, set_composing,
    handleValidate, hval]
  split_ifs with h1 h2 h3 <;> simp_all

/-- Witness for C3: the amended theorem applied to a concrete 77-byte
existing destination and a failing validation. -/
theorem c3_witness :
    complete_multipart_upload_handle ⟨true, false, true, true⟩ md5c0
      [⟨1, 4194304, "a"⟩, ⟨2, 1024, "b"⟩] [(1, ⟨some "a"⟩), (2, ⟨some "b"⟩)]
      [1, 2] ⟨UState.uploading, 77⟩ =
    (Except.error (PyErr.s3 S3ErrorKind.entityTooSmall),
     ⟨UState.composing, 0⟩) := by
  have h := c3_reset_precedes_validation ⟨true, false, true, true⟩ md5c0
    [⟨1, 4194304, "a"⟩, ⟨2, 1024, "b"⟩] [(1, ⟨some "a"⟩), (2, ⟨some "b"⟩)]
    [1, 2] ⟨UState.uploading, 77⟩ (PyErr.s3 S3ErrorKind.entityTooSmall)
    rfl rfl rfl rfl
  simpa using h

/-- C5: the abort handler's retry pass is inverted in the source
(`handlers.py:70-71`): with 5 parts of which 2 fail metadata deletion on
the first pass, a retry in which *both* succeed returns the internal
error, while a retry in which both fail again falls through to the
successful 204 deletion — the opposite of the claimed best-effort
policy. -/
theorem c5_retry_inversion :
    abort_multipart_upload UState.uploading
      [⟨⟨1, 1, ""⟩, failEnv, defaultCleanEnv⟩,
       ⟨⟨2, 1, ""⟩, failEnv, defaultCleanEnv⟩,
       ⟨⟨3, 1, ""⟩, defaultCleanEnv, defaultCleanEnv⟩,
       ⟨⟨4, 1, ""⟩, defaultCleanEnv, defaultCleanEnv⟩,
       ⟨⟨5, 1, ""⟩, defaultCleanEnv, defaultCleanEnv⟩] true true =
      (AbortResp.errResp S3ErrorKind.internalError, UState.uploading) ∧
    abort_multipart_upload UState.uploading
      [⟨⟨1, 1, ""⟩, failEnv, failEnv⟩,
       ⟨⟨2, 1, ""⟩, failEnv, failEnv⟩,
       ⟨⟨3, 1, ""⟩, defaultCleanEnv, defaultCleanEnv⟩,
       ⟨⟨4, 1, ""⟩, defaultCleanEnv, defaultCleanEnv⟩,
       ⟨⟨5, 1, ""⟩, defaultCleanEnv, defaultCleanEnv⟩] true true =
      (AbortResp.noContent, UState.deleted) := by
  exact ⟨rfl, rfl⟩

/-- C7 counterexample: completing a session of parts
`[{num 1, 4 MiB}, {num 2, 1 KiB}]` with matching hashes in ascending order
*does* fail with entity-too-small (part 1 is below the 5 MiB minimum and is
not the highest-numbered part). -/
theorem c7_counterexample_entity_too_small :
    get_upload_parts_and_validate md5c0 [⟨1, 4194304, "a"⟩, ⟨2, 1024, "b"⟩]
      [(1, ⟨some "a"⟩), (2, ⟨some "b"⟩)] [1, 2] =
    Except.error (PyErr.s3 S3ErrorKind.entityTooSmall) := by
  exact rfl

/-- C7 (amended): the exemption from the 5 MiB minimum applies only to the
highest-numbered part — the 4 MiB part 1 fails entity-too-small even
though part 2 is last, and the same completion with part 1 at 5 MiB
succeeds, the 1 KiB last part raising no size error. -/
theorem c7_last_part_exemption :
    get_upload_parts_and_validate md5c0 [⟨1, 4194304, "a"⟩, ⟨2, 1024, "b"⟩]
      [(1, ⟨some "a"⟩), (2, ⟨some "b"⟩)] [1, 2] =
      Except.error (PyErr.s3 S3ErrorKind.entityTooSmall) ∧
    get_upload_parts_and_validate md5c0 [⟨1, 5242880, "a"⟩, ⟨2, 1024, "b"⟩]
      [(1, ⟨some "a"⟩), (2, ⟨some "b"⟩)] [1, 2] =
      Except.ok ([(1, ⟨1, 5242880, "a"⟩), (2, ⟨2, 1024, "b"⟩)], [],
        "\"M-2\"") := by
  exact ⟨rfl, rfl⟩

/-- C4 counterexample: in the completion handler's post-combine cleanup, a
batch of 5 unused parts with 3 metadata-deletion failures (more than half)
does *not* escalate — `complete_iter` ignores the final failed list and
streams the success payload. -/
theorem c4_completion_cleanup_ignores_majority :
    complete_iter ⟨[], [], true,
        [failEnv, failEnv, failEnv, defaultCleanEnv, defaultCleanEnv],
        [], true, true⟩
      [] [] [⟨3, 1, "c"⟩, ⟨4, 1, "d"⟩, ⟨5, 1, "e"⟩, ⟨6, 1, "f"⟩, ⟨7, 1, "g"⟩]
      "E" ⟨UState.composing, 0⟩ 0 =
    ⟨[Chunk.successPayload "E" true], ⟨UState.deleted, 0⟩⟩ := by
  exact rfl

/-- C4 (amended): the majority-failure policy is applied by the abort
handler only — whenever strictly more than `floor(n/2)` of the `n` targeted
parts fail metadata deletion on the first pass, the abort escalates to the
internal error without the per-item retry pass (the result is the same for
every retry-pass oracle); the completion handler's cleanup applies no
failure policy at all. -/
theorem c4_abort_majority_policy :
    ∀ (st : UState) (items itemsB : List AbortItem) (d1 d2 d1' d2' : Bool),
      st ≠ UState.composing → st ≠ UState.completed →
      items.map (fun i => (i.part, i.pass1)) =
        itemsB.map (fun i => (i.part, i.pass1)) →
      (mdFails true (items.map (fun i => (i.part, i.pass1)))).length >
        items.length / 2 →
      abort_multipart_upload st items d1 d2 =
        (AbortResp.errResp S3ErrorKind.internalError, st) ∧
      abort_multipart_upload st itemsB d1' d2' =
        (AbortResp.errResp S3ErrorKind.internalError, st) := by
  have key : ∀ (st : UState) (it : List AbortItem) (da db : Bool) (n : Nat),
      st ≠ UState.composing → st ≠ UState.completed →
      it.length = n →
      (mdFails true (it.map (fun i => (i.part, i.pass1)))).length > n / 2 →
      abort_multipart_upload st it da db =
        (AbortResp.errResp S3ErrorKind.internalError, st) := by
    intro st it da db n h1 h2 hlen hmaj
    have hpos : 0 < (mdFails true (it.map (fun i => (i.part, i.pass1)))).length :=
      lt_of_le_of_lt (Nat.zero_le _) hmaj
    simp only [abort_multipart_upload, if_neg h1, if_neg h2, clear_parts_final]
    rw [if_neg (by
      simp only [List.isEmpty_iff]
      intro hnil
      rw [hnil] at hpos
      simp at hpos)]
    rw [if_pos (by rw [hlen]; exact hmaj)]
  intro st items itemsB d1 d2 d1' d2' h1 h2 hmap hmaj
  refine ⟨key st items d1 d2 items.length h1 h2 rfl hmaj, ?_⟩
  apply key st itemsB d1' d2' items.length h1 h2
  · have h := congrArg List.length hmap
    simpa using h.symm
  · rw [← hmap]
    exact hmaj

/-- Witness for C4: a concrete uploading-state abort over 5 parts with 3
first-pass metadata failures returns the internal error under two
different retry-pass oracles. -/
theorem c4_witness :
    abort_multipart_upload UState.uploading
      [⟨⟨1, 1, ""⟩, failEnv, defaultCleanEnv⟩,
       ⟨⟨2, 1, ""⟩, failEnv, defaultCleanEnv⟩,
       ⟨⟨3, 1, ""⟩, failEnv, defaultCleanEnv⟩,
       ⟨⟨4, 1, ""⟩, defaultCleanEnv, defaultCleanEnv⟩,
       ⟨⟨5, 1, ""⟩, defaultCleanEnv, defaultCleanEnv⟩] true true =
      (AbortResp.errResp S3ErrorKind.internalError, UState.uploading) ∧
    abort_multipart_upload UState.uploading
      [⟨⟨1, 1, ""⟩, failEnv, failEnv⟩,
       ⟨⟨2, 1, ""⟩, failEnv, failEnv⟩,
       ⟨⟨3, 1, ""⟩, failEnv, failEnv⟩,
       ⟨⟨4, 1, ""⟩, defaultCleanEnv, failEnv⟩,
       ⟨⟨5, 1, ""⟩, defaultCleanEnv, failEnv⟩] true false =
      (AbortResp.errResp S3ErrorKind.internalError, UState.uploading) :=
  c4_abort_majority_policy UState.uploading
    [⟨⟨1, 1, ""⟩, failEnv, defaultCleanEnv⟩,
     ⟨⟨2, 1, ""⟩, failEnv, defaultCleanEnv⟩,
     ⟨⟨3, 1, ""⟩, failEnv, defaultCleanEnv⟩,
     ⟨⟨4, 1, ""⟩, defaultCleanEnv, defaultCleanEnv⟩,
     ⟨⟨5, 1, ""⟩, defaultCleanEnv, defaultCleanEnv⟩]
    [⟨⟨1, 1, ""⟩, failEnv, failEnv⟩,
     ⟨⟨2, 1, ""⟩, failEnv, failEnv⟩,
     ⟨⟨3, 1, ""⟩, failEnv, failEnv⟩,
     ⟨⟨4, 1, ""⟩, defaultCleanEnv, failEnv⟩,
     ⟨⟨5, 1, ""⟩, defaultCleanEnv, failEnv⟩]
    true true true false (by decide) (by decide) (by decide) (by decide)

/-! ### The keep-alive flush shape of the completion stream -/

/-- Checks that `l` is a well-formed flush run starting from `yielded_doctype = b`:
each element is exactly what `flushChunk` emits for the evolving flag (so
the first flush from an unset flag is the XML declaration and every later
flush a single space). -/
def isFlushSeqFrom : Bool → List Chunk → Bool
  | _, [] => true
  | b, c :: rest => (c == (flushChunk b).1) && isFlushSeqFrom true rest

/-- Emitting a flush always sets the flag. -/
theorem flushChunk_snd (b : Bool) : (flushChunk b).2 = true := by
  cases b <;> rfl

/-- Flush runs compose: a run from `b` followed by a run from the updated
flag is a run from `b`. -/
theorem isFlushSeqFrom_append :
    ∀ (c1 : List Chunk) (b : Bool) (c2 : List Chunk),
      isFlushSeqFrom b c1 = true →
      isFlushSeqFrom (b || !c1.isEmpty) c2 = true →
      isFlushSeqFrom b (c1 ++ c2) = true := by
  intro c1
  induction c1 with
  | nil =>
    intro b c2 _ h2
    simpa using h2
  | cons a t ih =>
    intro b c2 h1 h2
    simp only [isFlushSeqFrom, Bool.and_eq_true, List.cons_append] at h1 ⊢
    refine ⟨h1.1, ih true c2 h1.2 ?_⟩
    simpa using h2

/-- List `isEmpty` distributes over append. -/
theorem listIsEmptyAppend {α : Type} (l1 l2 : List α) :
    (l1 ++ l2).isEmpty = (l1.isEmpty && l2.isEmpty) := by
  cases l1 <;> simp

/-- The chunks emitted while consuming `save_part_to_object_iter` are a
flush run, and the returned flag is the input flag updated by whether
anything was emitted. -/
theorem savePartGo_flushSeq (saveOk : Bool) :
    ∀ (blocks : List BlockEnv) (off st clk : Nat) (b : Bool) (ob : Nat),
      isFlushSeqFrom b (savePartGo saveOk blocks off st clk b ob).chunks =
        true ∧
      (savePartGo saveOk blocks off st clk b ob).flag =
        (b || !(savePartGo saveOk blocks off st clk b ob).chunks.isEmpty) := by
  intro blocks
  induction blocks with
  | nil =>
    intro off st clk b ob
    simp only [savePartGo]
    split_ifs <;> simp [isFlushSeqFrom]
  | cons blk rest ih =>
    intro off st clk b ob
    simp only [savePartGo]
    split
    · split
      · exact ih _ _ _ _ _
      · rw [flushChunk_snd]
        have hr := ih (off + blk.len) st (clk + blk.elapsed) true
          (max ob (off + blk.len))
        constructor
        · simp only [isFlushSeqFrom, Bool.and_eq_true]
          exact ⟨by simp, hr.1⟩
        · rw [hr.2]
          simp
    · simp [isFlushSeqFrom]

/-- The chunks emitted by the combine loop are a flush run, with the same
flag bookkeeping. -/
theorem combineGo_flushSeq (used : List (Nat × PartEntry)) :
    ∀ (items : List (Nat × PartIterEnv × Nat)) (off st clk : Nat) (b : Bool)
      (ob : Nat),
      isFlushSeqFrom b (combineGo used items off st clk b ob).chunks = true ∧
      (combineGo used items off st clk b ob).flag =
        (b || !(combineGo used items off st clk b ob).chunks.isEmpty) := by
  intro items
  induction items with
  | nil => intro off st clk b ob; simp [combineGo, isFlushSeqFrom]
  | cons itm rest ih =>
    intro off st clk b ob
    obtain ⟨n, pe, le⟩ := itm
    have hs := savePartGo_flushSeq pe.saveOk pe.blocks off clk clk b ob
    simp only [combineGo]
    split
    · simp [isFlushSeqFrom]
    · rename_i part hpart
      simp only [save_part_to_object_iter] at *
      split
      · exact ⟨hs.1, by simpa using hs.2⟩
      · split
        · -- fast outer check: chunks = s.chunks ++ r.chunks
          have hr := ih (off + part.size)
            ((savePartGo pe.saveOk pe.blocks off clk clk b ob).clock + le)
            ((savePartGo pe.saveOk pe.blocks off clk clk b ob).clock + le)
            (savePartGo pe.saveOk pe.blocks off clk clk b ob).flag
            (savePartGo pe.saveOk pe.blocks off clk clk b ob).objBytes
          constructor
          · apply isFlushSeqFrom_append _ _ _ hs.1
            rw [← hs.2]
            exact hr.1
          · rw [hr.2, hs.2]
            simp [listIsEmptyAppend, Bool.not_and, Bool.or_assoc]
        · -- slow outer check: chunks = s.chunks ++ flush :: r.chunks
          rw [flushChunk_snd]
          have hr := ih (off + part.size) st
            ((savePartGo pe.saveOk pe.blocks off clk clk b ob).clock + le)
            true
            (savePartGo pe.saveOk pe.blocks off clk clk b ob).objBytes
          constructor
          · apply isFlushSeqFrom_append _ _ _ hs.1
            rw [← hs.2]
            simp only [isFlushSeqFrom, Bool.and_eq_true]
            exact ⟨by simp, hr.1⟩
          · rw [hr.2]
            simp [listIsEmptyAppend]

/-- The chunks produced from consuming cleanup yields are a flush run. -/
theorem consumeCleanYields_flushSeq :
    ∀ (ys : List CleanYield) (b : Bool),
      isFlushSeqFrom b (consumeCleanYields b ys).1 = true ∧
      (consumeCleanYields b ys).2 =
        (b || !(consumeCleanYields b ys).1.isEmpty) := by
  intro ys
  induction ys with
  | nil => intro b; simp [consumeCleanYields, isFlushSeqFrom]
  | cons y rest ih =>
    intro b
    cases y with
    | keepAlive =>
      simp only [consumeCleanYields]
      rw [flushChunk_snd]
      have hr := ih true
      constructor
      · simp only [isFlushSeqFrom, Bool.and_eq_true]
        exact ⟨by simp, hr.1⟩
      · rw [hr.2]
        simp
    | final l =>
      simp only [consumeCleanYields]
      exact ih b

/-- All non-terminal chunks of a `complete_iter` try-body form a flush run
starting from an unset `yielded_doctype` flag. -/
theorem complete_try_flushSeq (env : CIEnv) (numbers : List Nat)
    (used : List (Nat × PartEntry)) (unused : List PartEntry)
    (ob clk : Nat) :
    isFlushSeqFrom false
      (complete_try env numbers used unused ob clk).flushes = true := by
  have hc := combineGo_flushSeq used
    (zipIterEnvs numbers env.partEnvs env.loopElapsed) 0 clk clk false ob
  simp only [complete_try]
  split
  · exact hc.1
  · split
    · exact hc.1
    · have h1 := consumeCleanYields_flushSeq
        (clear_parts_cache_iter true (zipCleanEnvs unused env.unusedEnvs)
          (combineGo used (zipIterEnvs numbers env.partEnvs env.loopElapsed)
            0 clk clk false ob).clock).1
        (combineGo used (zipIterEnvs numbers env.partEnvs env.loopElapsed)
          0 clk clk false ob).flag
      dsimp only
      rw [List.append_assoc]
      apply isFlushSeqFrom_append _ _ _ hc.1
      rw [← hc.2]
      apply isFlushSeqFrom_append _ _ _ h1.1
      rw [← h1.2]
      exact (consumeCleanYields_flushSeq _ _).1

/-- C6 counterexample: a completion whose cleanup processes two parts of 6
seconds each (12 seconds elapsed with no output) emits *no* keep-alive
filler — the only chunk is the terminal payload, because each sub-10-second
check resets the timer and elapsed time never accumulates across fast
iterations. -/
theorem c6_no_accumulated_keepalive :
    complete_iter ⟨[defaultPartIterEnv], [0], true,
        [⟨true, true, true, true, 6⟩, ⟨true, true, true, true, 6⟩],
        [], true, true⟩
      [1] [(1, ⟨1, 5, "x"⟩)] [⟨8, 1, "u"⟩, ⟨9, 1, "v"⟩] "E"
      ⟨UState.composing, 0⟩ 0 =
    ⟨[Chunk.successPayload "E" true], ⟨UState.deleted, 0⟩⟩ := by
  exact rfl

/-- C6 (amended): a keep-alive arises only when at least 10 seconds pass
within a single iteration — when every iteration of a cleanup batch takes
under 10 seconds the cleanup generator yields no keep-alive at all,
whatever the total elapsed time; and in every `complete_iter` run the
non-terminal chunks are a flush run whose first emission is the XML
declaration and whose later emissions are single spaces. -/
theorem c6_keepalive_cadence :
    (∀ (is_rm : Bool) (items : List (PartEntry × CleanPartEnv)) (clk : Nat),
      (∀ x ∈ items, x.2.elapsed < 10) →
      (clear_parts_cache_iter is_rm items clk).1 =
        [CleanYield.final (mdFails is_rm items)]) ∧
    (∀ (env : CIEnv) (numbers : List Nat) (used : List (Nat × PartEntry))
       (unused : List PartEntry) (etag : String) (w : MWorld) (clock : Nat),
      isFlushSeqFrom false
        (complete_iter env numbers used unused etag w clock).chunks.dropLast =
        true) := by
  constructor
  · intro is_rm items clk hfast
    simpa [clear_parts_cache_iter] using
      clearPartsGo_no_keepalive is_rm items clk [] hfast
  · intro env numbers used unused etag w clock
    have ht := complete_try_flushSeq env numbers used unused w.objBytes clock
    simp only [complete_iter]
    split
    · dsimp only
      rw [List.dropLast_concat]
      exact ht
    · dsimp only
      rw [List.dropLast_concat]
      exact ht

/-- Witness for C6: the cadence theorem applied to a one-part batch taking
3 seconds (no keep-alive emitted) and to a concrete completion run. -/
theorem c6_witness :
    (clear_parts_cache_iter true
      [(⟨1, 1, "x"⟩, ⟨false, false, true, true, 3⟩)] 0).1 =
      [CleanYield.final [⟨1, 1, "x"⟩]] ∧
    isFlushSeqFrom false
      ((complete_iter ⟨[], [], true, [], [], true, true⟩ [] [] [] "E"
        ⟨UState.composing, 0⟩ 0).chunks.dropLast) = true := by
  constructor
  · have h := c6_keepalive_cadence.1 true
      [(⟨1, 1, "x"⟩, ⟨false, false, true, true, 3⟩)] 0 (by decide)
    simpa [mdFails] using h
  · exact c6_keepalive_cadence.2 ⟨[], [], true, [], [], true, true⟩
      [] [] [] "E" ⟨UState.composing, 0⟩ 0
